import Mathlib

/-!
# Verification of the `named_pipe` Ansible callback plugin

A shallow embedding of `src/named_pipe.py` (class `CallbackModule`), an
Ansible callback plugin that writes status updates as line-delimited JSON
to a named pipe, together with proofs about the embedded definitions.

The embedding covers:
* a model of Python JSON values and of `json.dumps` (its default
  separators and string escaping);
* the plugin state (`self.session`, `self.hostname`, `self.uuid`,
  `self.errors`, `self.playbook`) and each `v2_*` notification handler;
* the constructor `__init__`, including its environment handling and the
  exact Python 2 semantics of the calls it makes (`open(path, "w", 0600)`
  and `datetime.utcnow()`).

Python attribute access on a never-assigned attribute raises
`AttributeError`; this is modelled with `Option` fields where `none`
means "attribute absent", and handlers return an `Option PyErr`
alongside their output.  Mutations that Python performs before a raise
(such as `self.errors += 1` at the top of `v2_runner_on_failed`) are
kept in the returned state, mirroring in-place object mutation.
-/

namespace NamedPipe

/-! ## JSON values and `json.dumps` -/

/-- A Python value that `json.dumps` can serialize: `None`, `bool`,
`int`, `str`, `list`, `dict` (string keys, in insertion order). -/
inductive Json where
  | null : Json
  | bool (b : Bool) : Json
  | num (n : Int) : Json
  | str (s : String) : Json
  | arr (elems : List Json) : Json
  | obj (fields : List (String × Json)) : Json

/-- The sixteen lowercase hex digits, as used by `json.dumps` in
`\uXXXX` escapes. -/
def hexDigits : List Char :=
  "0123456789abcdef".data

/-- Hex digit of `n % 16`. -/
def hexDig (n : Nat) : Char :=
  hexDigits.get ⟨n % 16, by show n % 16 < 16; omega⟩

/-- A four-digit `\uXXXX` escape for a code unit `n < 0x10000`. -/
def uEscape (n : Nat) : String :=
  "\\u" ++ ⟨[hexDig (n / 4096), hexDig (n / 256), hexDig (n / 16), hexDig n]⟩

/-- How `json.dumps` renders one character of a string: the named
escapes for quote, backslash and the common control characters, `\uXXXX`
for other control characters and (with the default `ensure_ascii`) for
non-ASCII characters, surrogate pairs beyond the BMP, and the character
itself otherwise. -/
def escapeChar (c : Char) : String :=
  if c = '"' then "\\\""
  else if c = '\\' then "\\\\"
  else if c = '\n' then "\\n"
  else if c = '\r' then "\\r"
  else if c = '\t' then "\\t"
  else if c.toNat = 8 then "\\b"
  else if c.toNat = 12 then "\\f"
  else if c.toNat < 32 then uEscape c.toNat
  else if c.toNat < 127 then String.singleton c
  else if c.toNat < 65536 then uEscape c.toNat
  else
    uEscape (55296 + (c.toNat - 65536) / 1024) ++ uEscape (56320 + (c.toNat - 65536) % 1024)

/-- Concatenation of a list of strings. -/
def strConcat : List String → String
  | [] => ""
  | x :: xs => x ++ strConcat xs

/-- `json.dumps` rendering of a Python string: a double-quoted sequence
of escaped characters. -/
def encodeString (s : String) : String :=
  "\"" ++ strConcat (s.data.map escapeChar) ++ "\""

/-- Decimal digits of a natural number (fuel-based; `fuel ≥ n + 1`
suffices, and callers pass `n + 1`). -/
def natChars : Nat → Nat → List Char
  | 0, _ => []
  | fuel + 1, n =>
    if n < 10 then [hexDig n]
    else natChars fuel (n / 10) ++ [hexDig (n % 10)]

/-- Decimal rendering of a natural number. -/
def natRepr (n : Nat) : String :=
  ⟨natChars (n + 1) n⟩

/-- `str(n)` for a Python `int`, as embedded by `json.dumps`. -/
def intRepr : Int → String
  | .ofNat n => natRepr n
  | .negSucc m => "-" ++ natRepr (m + 1)

mutual

/-- `json.dumps(data)` with the Python 2 default separators
`(', ', ': ')` and default escaping.  (CPython emits the keys of a
`dict` in hash-table order; the model keeps the order of the literal.
No claim below depends on the key order inside one object.) -/
def Json.dumps : Json → String
  | .null => "null"
  | .bool b => if b then "true" else "false"
  | .num n => intRepr n
  | .str s => encodeString s
  | .arr xs => "[" ++ dumpsArr xs ++ "]"
  | .obj kvs => "\x7b" ++ dumpsObj kvs ++ "\x7d"

/-- Comma-separated rendering of the elements of a JSON array. -/
def dumpsArr : List Json → String
  | [] => ""
  | x :: xs => Json.dumps x ++ (if xs.isEmpty then "" else ", ") ++ dumpsArr xs

/-- Comma-separated rendering of the key/value pairs of a JSON object. -/
def dumpsObj : List (String × Json) → String
  | [] => ""
  | kv :: xs =>
    encodeString kv.1 ++ ": " ++ Json.dumps kv.2 ++ (if xs.isEmpty then "" else ", ") ++ dumpsObj xs

end

/-- Field lookup in a JSON object's field list (first match). -/
def lookupJ (k : String) : List (String × Json) → Option Json
  | [] => none
  | kv :: rest => if kv.1 = k then some kv.2 else lookupJ k rest

/-- The keys of a JSON object, in order (`[]` on non-objects). -/
def objKeys : Json → List String
  | .obj kvs => kvs.map Prod.fst
  | _ => []

/-- Field lookup on a JSON value (`none` on non-objects). -/
def getField (k : String) : Json → Option Json
  | .obj kvs => lookupJ k kvs
  | _ => none

/-- `s` contains no newline character. -/
def noNewline (s : String) : Prop :=
  ∀ c ∈ s.data, c ≠ '\n'

instance : DecidablePred noNewline := fun s => by
  unfold noNewline; infer_instance

/-! ## Python string ordering

Python 2 compares strings lexicographically by code point; `sorted`
returns the ascending order.  Lean's built-in `String` order does not
reduce well in the kernel, so the comparison is defined directly on the
character list. -/

/-- Lexicographic comparison of character lists by code point, the
order Python uses on strings. -/
def lexLe : List Char → List Char → Bool
  | [], _ => true
  | _ :: _, [] => false
  | a :: as, b :: bs => if a < b then true else if b < a then false else lexLe as bs

/-- `a <= b` for Python strings. -/
def strLe (a b : String) : Prop :=
  lexLe a.data b.data = true

instance : DecidableRel strLe := fun a b => by
  unfold strLe; infer_instance

/-- `sorted(keys)`: ascending lexicographic sort of a list of strings.
(`sorted` in Python is a stable sort; with a total antisymmetric order
the resulting list is uniquely determined by sortedness plus being a
permutation, so an insertion sort is an exact model.) -/
def pySorted (l : List String) : List String :=
  List.insertionSort strLe l

/-! ## Plugin state and notification handlers

`CState` carries the attributes of the `CallbackModule` object that the
`v2_*` handlers read and write.  `__init__` assigns `self.session`,
`self.hostname`, `self.uuid = None` and `self.errors = 0` (lines 58-61)
but never assigns `self.playbook`; only `v2_playbook_on_play_start`
does.  `playbook = none` therefore models the *absent* attribute (whose
access raises `AttributeError`), while `uuid = none` models the value
`None` (which serializes as JSON `null`). -/

/-- A Python exception raised by the plugin code. -/
inductive PyErr where
  | typeError : PyErr
  | ioError : PyErr
  | attributeError (name : String) : PyErr
deriving DecidableEq

/-- The mutable attributes of the `CallbackModule` object. -/
structure CState where
  session : String
  hostname : String
  uuid : Option String
  errors : Nat
  playbook : Option String

/-- The object state right after the field assignments of `__init__`
(lines 58-61): `self.uuid = None`, `self.errors = 0`, and no
`self.playbook` attribute. -/
def initState (session hostname : String) : CState :=
  { session := session, hostname := hostname, uuid := none, errors := 0, playbook := none }

/-- `self.uuid` as a JSON value: Python `None` becomes JSON `null`. -/
def optStrJson : Option String → Json
  | none => Json.null
  | some s => Json.str s

/-- `write_to_pipe`: `self.pipe.write('%s\n' % json.dumps(data))` — the
byte string one call appends to the pipe. -/
def write_to_pipe (data : Json) : String :=
  Json.dumps data ++ "\n"

/-- Result of one handler call: the object state after the call (Python
mutates in place, so assignments made before a raise persist), the JSON
documents passed to `write_to_pipe`, and the exception if one was
raised. -/
structure HResult where
  state : CState
  events : List Json
  err : Option PyErr

/-- `v2_playbook_on_play_start(play)`: assigns `self.playbook` and
`self.uuid` from the play and emits one `start` event.  Arguments are
`play.name` and `play._uuid`. -/
def v2_playbook_on_play_start (s : CState) (playName playUuid : String) : HResult :=
  let s' := { s with playbook := some playName, uuid := some playUuid }
  { state := s'
    events := [Json.obj
      [("status", .str "OK"),
       ("host", .str s'.hostname),
       ("session", .str s'.session),
       ("playbook_name", .str playName),
       ("playbook_id", .str playUuid),
       ("ansible_type", .str "start")]]
    err := none }

/-- `v2_runner_on_ok(result)`: one `task`/`OK` event.  `host` is
`result._host.get_name()`, `task` is `str(result._task)`, `res` is the
string `self._dump_results(result._result)`.  Reading `self.playbook`
before any play started raises `AttributeError`. -/
def v2_runner_on_ok (s : CState) (host task res : String) : HResult :=
  match s.playbook with
  | none => { state := s, events := [], err := some (.attributeError "playbook") }
  | some pb =>
    { state := s
      events := [Json.obj
        [("status", .str "OK"),
         ("host", .str s.hostname),
         ("ansible_host", .str host),
         ("session", .str s.session),
         ("ansible_type", .str "task"),
         ("playbook_name", .str pb),
         ("playbook_id", optStrJson s.uuid),
         ("ansible_task", .str task),
         ("ansible_result", .str res)]]
      err := none }

/-- `v2_runner_on_failed(result, **kwargs)`: increments `self.errors`
(line 126, before the event dict is built) and emits one `task`/`FAILED`
event. -/
def v2_runner_on_failed (s : CState) (host task res : String) : HResult :=
  let s' := { s with errors := s.errors + 1 }
  match s'.playbook with
  | none => { state := s', events := [], err := some (.attributeError "playbook") }
  | some pb =>
    { state := s'
      events := [Json.obj
        [("status", .str "FAILED"),
         ("host", .str s'.hostname),
         ("playbook_id", optStrJson s'.uuid),
         ("session", .str s'.session),
         ("ansible_type", .str "task"),
         ("playbook_name", .str pb),
         ("ansible_host", .str host),
         ("ansible_task", .str task),
         ("ansible_result", .str res)]]
      err := none }

/-- `v2_runner_on_unreachable(result)`: increments `self.errors` and
emits one `task`/`UNREACHABLE` event. -/
def v2_runner_on_unreachable (s : CState) (host task res : String) : HResult :=
  let s' := { s with errors := s.errors + 1 }
  match s'.playbook with
  | none => { state := s', events := [], err := some (.attributeError "playbook") }
  | some pb =>
    { state := s'
      events := [Json.obj
        [("status", .str "UNREACHABLE"),
         ("host", .str s'.hostname),
         ("session", .str s'.session),
         ("ansible_type", .str "task"),
         ("playbook_name", .str pb),
         ("playbook_id", optStrJson s'.uuid),
         ("ansible_host", .str host),
         ("ansible_task", .str task),
         ("ansible_result", .str res)]]
      err := none }

/-- `v2_runner_on_async_failed(result)`: increments `self.errors` and
emits one `task`/`FAILED` event. -/
def v2_runner_on_async_failed (s : CState) (host task res : String) : HResult :=
  let s' := { s with errors := s.errors + 1 }
  match s'.playbook with
  | none => { state := s', events := [], err := some (.attributeError "playbook") }
  | some pb =>
    { state := s'
      events := [Json.obj
        [("status", .str "FAILED"),
         ("host", .str s'.hostname),
         ("session", .str s'.session),
         ("ansible_type", .str "task"),
         ("playbook_name", .str pb),
         ("playbook_id", optStrJson s'.uuid),
         ("ansible_host", .str host),
         ("ansible_task", .str task),
         ("ansible_result", .str res)]]
      err := none }

/-- Shared body of the four `v2_runner_item_on_*` handlers, which differ
only in the `status` string.  None of them touches `self.errors`. -/
def runnerItemEvent (s : CState) (status host task res : String) : HResult :=
  match s.playbook with
  | none => { state := s, events := [], err := some (.attributeError "playbook") }
  | some pb =>
    { state := s
      events := [Json.obj
        [("status", .str status),
         ("host", .str s.hostname),
         ("session", .str s.session),
         ("ansible_type", .str "item"),
         ("playbook_name", .str pb),
         ("playbook_id", optStrJson s.uuid),
         ("ansible_host", .str host),
         ("ansible_task", .str task),
         ("ansible_result", .str res)]]
      err := none }

/-- `v2_runner_item_on_ok(result)`: one `item`/`OK` event. -/
def v2_runner_item_on_ok (s : CState) (host task res : String) : HResult :=
  runnerItemEvent s "OK" host task res

/-- `v2_runner_item_on_failed(result)`: one `item`/`FAILED` event; does
*not* touch `self.errors`. -/
def v2_runner_item_on_failed (s : CState) (host task res : String) : HResult :=
  runnerItemEvent s "FAILED" host task res

/-- `v2_runner_item_on_skipped(result)`: one `item`/`SKIPPED` event. -/
def v2_runner_item_on_skipped (s : CState) (host task res : String) : HResult :=
  runnerItemEvent s "SKIPPED" host task res

/-- `v2_runner_item_on_retry(result)`: one `item`/`RETRY` event. -/
def v2_runner_item_on_retry (s : CState) (host task res : String) : HResult :=
  runnerItemEvent s "RETRY" host task res

/-- Lines 98-101 of `v2_playbook_on_stats`: `'FAILED' if self.errors >
0 else 'OK'`. -/
def final_status (errors : Nat) : String :=
  if errors > 0 then "FAILED" else "OK"

/-- One per-host statistics event of `v2_playbook_on_stats` (lines
89-95): `stat = stats.summarize(host)` is the payload stored for `host`
in the processed-hosts mapping. -/
def statsHostEvent (s : CState) (pb : String) (processed : List (String × Json))
    (host : String) : Json :=
  Json.obj
    [("host", .str s.hostname),
     ("ansible_host", .str host),
     ("playbook_id", optStrJson s.uuid),
     ("playbook_name", .str pb),
     ("stats", (lookupJ host processed).getD Json.null)]

/-- The final summary event of `v2_playbook_on_stats` (lines 103-107). -/
def statsSummaryEvent (s : CState) (pb : String) : Json :=
  Json.obj
    [("playbook_id", optStrJson s.uuid),
     ("playbook_name", .str pb),
     ("status", .str (final_status s.errors))]

/-- `v2_playbook_on_stats(stats)`: sorts `stats.processed.keys()`, emits
one statistics event per host in that order, then the summary event.
`processed` models the `stats.processed` dict as an association list
from hostname to the `stats.summarize(host)` payload, in the dict's
(arbitrary) iteration order.  Reading `self.playbook` before any play
started raises `AttributeError` — with hosts present on the first
per-host dict, otherwise on the summary dict; either way before any
write. -/
def v2_playbook_on_stats (s : CState) (processed : List (String × Json)) : HResult :=
  match s.playbook with
  | none => { state := s, events := [], err := some (.attributeError "playbook") }
  | some pb =>
    { state := s
      events :=
        (pySorted (processed.map Prod.fst)).map (statsHostEvent s pb processed)
          ++ [statsSummaryEvent s pb]
      err := none }

/-! ## Notification sequences -/

/-- One lifecycle notification delivered by the engine, carrying the
engine-supplied data each handler extracts from its arguments. -/
inductive Notification where
  | playStart (name uuid : String)
  | runnerOk (host task res : String)
  | runnerFailed (host task res : String)
  | runnerUnreachable (host task res : String)
  | runnerAsyncFailed (host task res : String)
  | itemOk (host task res : String)
  | itemFailed (host task res : String)
  | itemSkipped (host task res : String)
  | itemRetry (host task res : String)
  | playbookStats (processed : List (String × Json))

/-- Dispatch one notification to its handler. -/
def step (s : CState) : Notification → HResult
  | .playStart name uuid => v2_playbook_on_play_start s name uuid
  | .runnerOk host task res => v2_runner_on_ok s host task res
  | .runnerFailed host task res => v2_runner_on_failed s host task res
  | .runnerUnreachable host task res => v2_runner_on_unreachable s host task res
  | .runnerAsyncFailed host task res => v2_runner_on_async_failed s host task res
  | .itemOk host task res => v2_runner_item_on_ok s host task res
  | .itemFailed host task res => v2_runner_item_on_failed s host task res
  | .itemSkipped host task res => v2_runner_item_on_skipped s host task res
  | .itemRetry host task res => v2_runner_item_on_retry s host task res
  | .playbookStats processed => v2_playbook_on_stats s processed

/-- Run a sequence of notifications, stopping at the first exception
(which propagates to the engine); events emitted before the raise are
kept. -/
def run (s : CState) : List Notification → HResult
  | [] => { state := s, events := [], err := none }
  | n :: ns =>
    match step s n with
    | ⟨s', evs, none⟩ =>
      let r := run s' ns
      { state := r.state, events := evs ++ r.events, err := r.err }
    | ⟨s', evs, some e⟩ => { state := s', events := evs, err := some e }

/-- The byte strings a run appends to the pipe, one per
`write_to_pipe` call. -/
def runLines (s : CState) (ns : List Notification) : List String :=
  (run s ns).events.map write_to_pipe

/-! ## The constructor `__init__` (lines 47-62)

The file is Python 2 (`0600` literal, `print_function` import).  Two
Python facts the model must be faithful to:

* `open(name, mode, bufsize)` — the third positional parameter of the
  Python 2 builtin `open` is the *buffer size*, not a permission mask;
  `0600` octal is 384 decimal.  `open(None, ...)` raises `TypeError`
  before looking at the other arguments.
* the module `datetime` (line 22 imports the module, not the class) has
  no attribute `utcnow` — its top-level names are listed in
  `datetimeModuleAttrs` — so line 62 `datetime.utcnow()` raises
  `AttributeError` whenever it is reached. -/

/-- The file object returned by the Python 2 builtin
`open(name, mode, bufsize)`. -/
structure PipeHandle where
  path : String
  mode : String
  bufsize : Nat
deriving DecidableEq

/-- The top-level names of the Python 2 `datetime` *module*. -/
def datetimeModuleAttrs : List String :=
  ["MAXYEAR", "MINYEAR", "date", "datetime", "time", "timedelta", "tzinfo"]

/-- Attribute lookup on the `datetime` module: `AttributeError` for any
name not defined by the module. -/
def datetimeModuleGetattr (name : String) : Except PyErr Unit :=
  if name ∈ datetimeModuleAttrs then .ok () else .error (.attributeError name)

/-- What `__init__` did: warnings passed to `self._display.warning`,
whether `self.disabled` was set, the file object created by the `open`
call if it returned, and either the fully initialized object state or
the exception `__init__` raised. -/
structure InitResult where
  warnings : List String
  disabled : Bool
  pipe : Option PipeHandle
  result : Except PyErr CState

/-- The warning text of lines 52-54. -/
def pipeWarning : String :=
  "Path to the named pipe to write to must be contained by the `ANSIBLE_NAMED_PIPE` environment variable"

/-- `CallbackModule.__init__` (lines 47-62).  Inputs model the
environment and platform: `pipeEnv` is `os.getenv('ANSIBLE_NAMED_PIPE',
None)`, `sessionEnv` is the `ANSIBLE_SESSION_ID` variable, `freshUuid`
is `str(uuid.uuid1())`, `hostname` is `socket.gethostname()`, and
`openOk path` tells whether `open(path, "w", 0600)` succeeds on this
filesystem (otherwise it raises `IOError`).

Control flow of the source: when the variable is missing the code
warns and sets `self.disabled = True` but does *not* return, so it
falls through to `open(None, "w", 0600)`, which raises `TypeError`.
When `open` succeeds, lines 58-61 assign the attributes and line 62
evaluates `datetime.utcnow()`. -/
def moduleInit (pipeEnv sessionEnv : Option String) (freshUuid hostname : String)
    (openOk : String → Bool) : InitResult :=
  match pipeEnv with
  | none =>
    { warnings := [pipeWarning], disabled := true, pipe := none,
      result := .error .typeError }
  | some path =>
    if openOk path then
      let handle : PipeHandle := { path := path, mode := "w", bufsize := 384 }
      match datetimeModuleGetattr "utcnow" with
      | .error e =>
        { warnings := [], disabled := false, pipe := some handle, result := .error e }
      | .ok _ =>
        { warnings := [], disabled := false, pipe := some handle,
          result := .ok (initState (sessionEnv.getD freshUuid) hostname) }
    else
      { warnings := [], disabled := false, pipe := none, result := .error .ioError }

/-! ## Notification classification -/

/-- The three failure-class handlers — the only ones that touch
`self.errors`. -/
def isFailClass : Notification → Bool
  | .runnerFailed _ _ _ => true
  | .runnerUnreachable _ _ _ => true
  | .runnerAsyncFailed _ _ _ => true
  | _ => false

/-- Number of failure-class notifications in a sequence. -/
def countFailClass (ns : List Notification) : Nat :=
  (ns.filter isFailClass).length

/-- Is this the run-start notification? -/
def isPlayStart : Notification → Bool
  | .playStart _ _ => true
  | _ => false

/-- The eight task-level and item-level notifications (everything except
run start and run end). -/
def isTaskOrItemNotif : Notification → Bool
  | .playStart _ _ => false
  | .playbookStats _ => false
  | _ => true

/-! ## The Python string order is a linear order -/

theorem lexLe_refl (as : List Char) : lexLe as as = true := by
  induction as with
  | nil => rfl
  | cons a as ih => simp [lexLe, ih]

theorem lexLe_trans :
    ∀ as bs cs, lexLe as bs = true → lexLe bs cs = true → lexLe as cs = true := by
  intro as
  induction as with
  | nil => intro bs cs _ _; rfl
  | cons a as ih =>
    intro bs cs hab hbc
    cases bs with
    | nil => simp [lexLe] at hab
    | cons b bs =>
      cases cs with
      | nil => simp [lexLe] at hbc
      | cons c cs =>
        simp only [lexLe] at hab hbc ⊢
        by_cases h1 : a < b <;> by_cases h2 : b < c
        · rw [if_pos (lt_trans h1 h2)]
        · by_cases h3 : c < b
          · rw [if_neg h2, if_pos h3] at hbc
            exact absurd hbc (by simp)
          · have hbc' : b = c := le_antisymm (not_lt.mp h3) (not_lt.mp h2)
            subst hbc'
            rw [if_pos h1]
        · by_cases h1' : b < a
          · rw [if_neg h1, if_pos h1'] at hab
            exact absurd hab (by simp)
          · have hab' : a = b := le_antisymm (not_lt.mp h1') (not_lt.mp h1)
            subst hab'
            rw [if_pos h2]
        · by_cases h1' : b < a
          · rw [if_neg h1, if_pos h1'] at hab
            exact absurd hab (by simp)
          · have hab' : a = b := le_antisymm (not_lt.mp h1') (not_lt.mp h1)
            subst hab'
            rw [if_neg h1, if_neg h1'] at hab
            by_cases h3 : c < a
            · rw [if_neg h2, if_pos h3] at hbc
              exact absurd hbc (by simp)
            · have hac : a = c := le_antisymm (not_lt.mp h3) (not_lt.mp h2)
              subst hac
              rw [if_neg h2, if_neg h3] at hbc
              rw [if_neg h2, if_neg h3]
              exact ih bs cs hab hbc

theorem lexLe_total (as bs : List Char) : lexLe as bs = true ∨ lexLe bs as = true := by
  induction as generalizing bs with
  | nil => left; rfl
  | cons a as ih =>
    cases bs with
    | nil => right; rfl
    | cons b bs =>
      by_cases h1 : a < b
      · left; simp [lexLe, h1]
      · by_cases h2 : b < a
        · right; simp [lexLe, h2]
        · rcases ih bs with h | h
          · left; simp [lexLe, h1, h2, h]
          · right; simp [lexLe, h1, h2, h]

theorem lexLe_antisymm :
    ∀ as bs, lexLe as bs = true → lexLe bs as = true → as = bs := by
  intro as
  induction as with
  | nil =>
    intro bs _ hba
    cases bs with
    | nil => rfl
    | cons b bs => simp [lexLe] at hba
  | cons a as ih =>
    intro bs hab hba
    cases bs with
    | nil => simp [lexLe] at hab
    | cons b bs =>
      simp only [lexLe] at hab hba
      by_cases h1 : a < b
      · rw [if_neg (lt_asymm h1), if_pos h1] at hba
        exact absurd hba (by simp)
      · by_cases h2 : b < a
        · rw [if_neg h1, if_pos h2] at hab
          exact absurd hab (by simp)
        · have hab' : a = b := le_antisymm (not_lt.mp h2) (not_lt.mp h1)
          subst hab'
          rw [if_neg h1, if_neg h2] at hab hba
          exact congrArg (a :: ·) (ih bs hab hba)

@[instance] theorem strLe_isTrans : IsTrans String strLe :=
  ⟨fun a b c hab hbc => lexLe_trans a.data b.data c.data hab hbc⟩

@[instance] theorem strLe_isTotal : IsTotal String strLe :=
  ⟨fun a b => lexLe_total a.data b.data⟩

@[instance] theorem strLe_isAntisymm : IsAntisymm String strLe :=
  ⟨fun a b hab hba => String.ext (lexLe_antisymm a.data b.data hab hba)⟩

@[instance] theorem strLe_isRefl : IsRefl String strLe :=
  ⟨fun a => lexLe_refl a.data⟩

/-! ## Basic lemmas about the handlers -/

theorem step_session (s : CState) (n : Notification) :
    (step s n).state.session = s.session := by
  obtain ⟨sess, hn, u, e, pb⟩ := s
  cases n <;> cases pb <;> rfl

theorem step_hostname (s : CState) (n : Notification) :
    (step s n).state.hostname = s.hostname := by
  obtain ⟨sess, hn, u, e, pb⟩ := s
  cases n <;> cases pb <;> rfl

/-- Only `v2_playbook_on_play_start` writes `self.playbook`. -/
theorem step_playbook (s : CState) (n : Notification) (h : isPlayStart n = false) :
    (step s n).state.playbook = s.playbook := by
  obtain ⟨sess, hn, u, e, pb⟩ := s
  cases n
  case playStart => simp [isPlayStart] at h
  all_goals cases pb <;> rfl

/-- Only `v2_playbook_on_play_start` writes `self.uuid`. -/
theorem step_uuid (s : CState) (n : Notification) (h : isPlayStart n = false) :
    (step s n).state.uuid = s.uuid := by
  obtain ⟨sess, hn, u, e, pb⟩ := s
  cases n
  case playStart => simp [isPlayStart] at h
  all_goals cases pb <;> rfl

/-- Exactly the failure-class handlers increment `self.errors`, by one,
whether or not the handler then raises. -/
theorem step_errors (s : CState) (n : Notification) :
    (step s n).state.errors = s.errors + (if isFailClass n then 1 else 0) := by
  obtain ⟨sess, hn, u, e, pb⟩ := s
  cases n <;> cases pb <;> simp [step, isFailClass, v2_playbook_on_play_start,
    v2_runner_on_ok, v2_runner_on_failed, v2_runner_on_unreachable,
    v2_runner_on_async_failed, v2_runner_item_on_ok, v2_runner_item_on_failed,
    v2_runner_item_on_skipped, v2_runner_item_on_retry, runnerItemEvent,
    v2_playbook_on_stats]

/-- Once a play has started, no handler raises. -/
theorem step_no_err (s : CState) (n : Notification) (pb : String)
    (hpb : s.playbook = some pb) : (step s n).err = none := by
  obtain ⟨sess, hn, u, e, pb'⟩ := s
  simp only [CState.playbook] at hpb
  subst hpb
  cases n <;> rfl

/-- A step keeps the playbook attribute assigned. -/
theorem step_playbook_isSome (s : CState) (n : Notification) (pb : String)
    (hpb : s.playbook = some pb) : ∃ pb', (step s n).state.playbook = some pb' := by
  cases hn : isPlayStart n with
  | false => exact ⟨pb, by rw [step_playbook s n hn, hpb]⟩
  | true =>
    cases n with
    | playStart name uuid => exact ⟨name, rfl⟩
    | _ => simp [isPlayStart] at hn

/-! ## Lemmas about association-list lookup -/

theorem lookupJ_isSome_of_mem {k : String} {l : List (String × Json)}
    (h : k ∈ l.map Prod.fst) : (lookupJ k l).isSome := by
  induction l with
  | nil => simp at h
  | cons kv rest ih =>
    simp only [List.map_cons, List.mem_cons] at h
    by_cases hk : kv.1 = k
    · simp [lookupJ, hk]
    · rcases h with h | h
      · exact absurd h.symm hk
      · simp only [lookupJ, if_neg hk]
        exact ih h

/-- Lookup in an association list with distinct keys is invariant under
permutation of the list. -/
theorem lookupJ_perm {l₁ l₂ : List (String × Json)} (h : l₁.Perm l₂)
    (nd : (l₁.map Prod.fst).Nodup) (k : String) : lookupJ k l₁ = lookupJ k l₂ := by
  induction h with
  | nil => rfl
  | cons x _ ih =>
    simp only [List.map_cons, List.nodup_cons] at nd
    by_cases hk : x.1 = k
    · simp [lookupJ, hk]
    · simp only [lookupJ, if_neg hk]
      exact ih nd.2
  | swap x y l =>
    simp only [List.map_cons, List.nodup_cons, List.mem_cons, not_or] at nd
    by_cases hy : y.1 = k <;> by_cases hx : x.1 = k
    · exact absurd (hy.trans hx.symm) nd.1.1
    · simp [lookupJ, hy, hx]
    · simp [lookupJ, hy, hx]
    · simp [lookupJ, hy, hx]
  | trans h₁ _ ih₁ ih₂ =>
    refine (ih₁ nd).trans (ih₂ ?_)
    exact (h₁.map Prod.fst).nodup nd

/-! ## No newline ever appears inside a serialized document -/

theorem noNewline_append {a b : String} (ha : noNewline a) (hb : noNewline b) :
    noNewline (a ++ b) := by
  intro c hc
  rw [String.data_append, List.mem_append] at hc
  rcases hc with hc | hc
  · exact ha c hc
  · exact hb c hc

theorem hexDig_ne_newline (n : Nat) : hexDig n ≠ '\n' := by
  have h : ∀ i : Fin hexDigits.length, hexDigits.get i ≠ '\n' := by decide
  exact h _

theorem noNewline_uEscape (n : Nat) : noNewline (uEscape n) := by
  refine noNewline_append (by decide) ?_
  intro c hc
  simp only [List.mem_cons, List.not_mem_nil, or_false] at hc
  rcases hc with h | h | h | h <;> (subst h; exact hexDig_ne_newline _)

theorem noNewline_escapeChar (c : Char) : noNewline (escapeChar c) := by
  rw [escapeChar]
  by_cases h1 : c = '"'
  · rw [if_pos h1]; decide
  rw [if_neg h1]
  by_cases h2 : c = '\\'
  · rw [if_pos h2]; decide
  rw [if_neg h2]
  by_cases h3 : c = '\n'
  · rw [if_pos h3]; decide
  rw [if_neg h3]
  by_cases h4 : c = '\r'
  · rw [if_pos h4]; decide
  rw [if_neg h4]
  by_cases h5 : c = '\t'
  · rw [if_pos h5]; decide
  rw [if_neg h5]
  by_cases h6 : c.toNat = 8
  · rw [if_pos h6]; decide
  rw [if_neg h6]
  by_cases h7 : c.toNat = 12
  · rw [if_pos h7]; decide
  rw [if_neg h7]
  by_cases h8 : c.toNat < 32
  · rw [if_pos h8]; exact noNewline_uEscape _
  rw [if_neg h8]
  by_cases h9 : c.toNat < 127
  · rw [if_pos h9]
    intro d hd
    rcases List.mem_singleton.mp hd with rfl
    exact h3
  rw [if_neg h9]
  by_cases h10 : c.toNat < 65536
  · rw [if_pos h10]; exact noNewline_uEscape _
  rw [if_neg h10]
  exact noNewline_append (noNewline_uEscape _) (noNewline_uEscape _)

theorem noNewline_strConcat {l : List String} (h : ∀ x ∈ l, noNewline x) :
    noNewline (strConcat l) := by
  induction l with
  | nil => intro c hc; simp [strConcat] at hc
  | cons x xs ih =>
    simp only [strConcat]
    exact noNewline_append (h x (by simp)) (ih fun y hy => h y (List.mem_cons_of_mem _ hy))

theorem noNewline_encodeString (s : String) : noNewline (encodeString s) := by
  rw [encodeString]
  refine noNewline_append (noNewline_append (by decide) ?_) (by decide)
  refine noNewline_strConcat ?_
  intro x hx
  rcases List.mem_map.mp hx with ⟨c, _, rfl⟩
  exact noNewline_escapeChar c

theorem noNewline_natChars (fuel n : Nat) : ∀ c ∈ natChars fuel n, c ≠ '\n' := by
  induction fuel generalizing n with
  | zero => intro c hc; simp [natChars] at hc
  | succ fuel ih =>
    intro c hc
    simp only [natChars] at hc
    split at hc
    · simp only [List.mem_singleton] at hc
      subst hc; exact hexDig_ne_newline _
    · rw [List.mem_append] at hc
      rcases hc with hc | hc
      · exact ih _ c hc
      · simp only [List.mem_singleton] at hc
        subst hc; exact hexDig_ne_newline _

theorem noNewline_natRepr (n : Nat) : noNewline (natRepr n) :=
  fun c hc => noNewline_natChars (n + 1) n c hc

theorem noNewline_intRepr (n : Int) : noNewline (intRepr n) := by
  cases n with
  | ofNat m => exact noNewline_natRepr m
  | negSucc m =>
    exact noNewline_append (by decide) (noNewline_natRepr (m + 1))

/-- The central serialization invariant: `json.dumps` output never
contains a raw newline — every newline in the data is escaped. -/
theorem noNewline_dumps (j : Json) : noNewline (Json.dumps j) := by
  refine Json.dumps.induct (fun j => noNewline (Json.dumps j))
    (fun kvs => noNewline (dumpsObj kvs)) (fun xs => noNewline (dumpsArr xs))
    ?_ ?_ ?_ ?_ ?_ ?_ ?_ ?_ ?_ ?_ ?_ j
  · decide
  · decide
  · intro b _; simp only [Json.dumps]; split <;> decide
  · intro n; simp only [Json.dumps]; exact noNewline_intRepr n
  · intro s; simp only [Json.dumps]; exact noNewline_encodeString s
  · intro xs hxs
    simp only [Json.dumps]
    exact noNewline_append (noNewline_append (by decide) hxs) (by decide)
  · intro kvs hkvs
    simp only [Json.dumps]
    exact noNewline_append (noNewline_append (by decide) hkvs) (by decide)
  · intro c hc; simp [dumpsArr] at hc
  · intro x xs hx hxs
    simp only [dumpsArr]
    refine noNewline_append (noNewline_append hx ?_) hxs
    split <;> decide
  · intro c hc; simp [dumpsObj] at hc
  · intro kv xs hkv hxs
    simp only [dumpsObj]
    refine noNewline_append (noNewline_append ?_ ?_) hxs
    · exact noNewline_append (noNewline_append (noNewline_encodeString _) (by decide)) hkv
    · split <;> decide

/-! ## Lemmas about whole runs -/

theorem countFailClass_cons (n : Notification) (ns : List Notification) :
    countFailClass (n :: ns) = (if isFailClass n then 1 else 0) + countFailClass ns := by
  simp only [countFailClass, List.filter_cons]
  cases h : isFailClass n <;> simp <;> omega

/-- Once a play has started, a run raises no exception, and the error
counter advances by exactly the number of failure-class notifications. -/
theorem run_ok (ns : List Notification) :
    ∀ (s : CState) (pb : String), s.playbook = some pb →
      (run s ns).err = none ∧
      (run s ns).state.errors = s.errors + countFailClass ns := by
  induction ns with
  | nil => intro s pb _; simp [run, countFailClass]
  | cons n ns ih =>
    intro s pb hpb
    rcases hstep : step s n with ⟨s', evs, err⟩
    have herr : err = none := by
      have h := step_no_err s n pb hpb
      rw [hstep] at h; exact h
    subst herr
    obtain ⟨pb', hpb'⟩ := step_playbook_isSome s n pb hpb
    rw [hstep] at hpb'
    have herrs : s'.errors = s.errors + (if isFailClass n then 1 else 0) := by
      have h := step_errors s n
      rw [hstep] at h; exact h
    have hr := ih s' pb' hpb'
    simp only [run, hstep]
    refine ⟨hr.1, ?_⟩
    rw [hr.2, herrs, countFailClass_cons]
    omega

/-- The session, hostname, uuid and playbook attributes are unchanged
across a whole run that contains no play-start notification. -/
theorem run_preserves (ns : List Notification) :
    ∀ (s : CState), (∀ n ∈ ns, isPlayStart n = false) →
      (run s ns).state.session = s.session ∧
      (run s ns).state.hostname = s.hostname ∧
      (run s ns).state.uuid = s.uuid ∧
      (run s ns).state.playbook = s.playbook := by
  induction ns with
  | nil => intro s _; simp [run]
  | cons n ns ih =>
    intro s hns
    rcases hstep : step s n with ⟨s', evs, err⟩
    have hsess : s'.session = s.session := by
      have h := step_session s n; rw [hstep] at h; exact h
    have hhost : s'.hostname = s.hostname := by
      have h := step_hostname s n; rw [hstep] at h; exact h
    have huuid : s'.uuid = s.uuid := by
      have h := step_uuid s n (hns n (by simp)); rw [hstep] at h; exact h
    have hpb : s'.playbook = s.playbook := by
      have h := step_playbook s n (hns n (by simp)); rw [hstep] at h; exact h
    cases err with
    | none =>
      have hr := ih s' (fun m hm => hns m (List.mem_cons_of_mem _ hm))
      simp only [run, hstep]
      exact ⟨hr.1.trans hsess, hr.2.1.trans hhost, hr.2.2.1.trans huuid, hr.2.2.2.trans hpb⟩
    | some e =>
      simp only [run, hstep]
      exact ⟨hsess, hhost, huuid, hpb⟩

/-- C2: for every sequence of notification calls after a play has
started, the error counter equals exactly the number of
`v2_runner_on_failed` + `v2_runner_on_unreachable` +
`v2_runner_on_async_failed` calls made (it starts at the state's
current value and is never decremented), and no other handler — the
four item-level handlers, the run-start handler and the run-end
handler — ever changes it. -/
theorem error_counter_spec (s : CState) (pb : String) (ns : List Notification)
    (hpb : s.playbook = some pb) :
    (run s ns).err = none ∧
    (run s ns).state.errors = s.errors + countFailClass ns ∧
    (∀ (s' : CState) (n : Notification), isFailClass n = false →
      (step s' n).state.errors = s'.errors) := by
  obtain ⟨h1, h2⟩ := run_ok ns s pb hpb
  refine ⟨h1, h2, ?_⟩
  intro s' n hn
  have h := step_errors s' n
  rw [hn] at h
  simpa using h

/-- Witness for C2: a run with one task failure, one unreachable host,
one item failure and one item ok ends with `self.errors = 2`. -/
theorem error_counter_spec_witness :
    (run ⟨"abc", "worker1", some "pb-1", 0, some "deploy"⟩
        [.runnerFailed "h1" "t1" "r1", .itemFailed "h1" "t1" "r1",
         .runnerUnreachable "h2" "t2" "r2", .itemOk "h2" "t2" "r2"]).err = none ∧
    (run ⟨"abc", "worker1", some "pb-1", 0, some "deploy"⟩
        [.runnerFailed "h1" "t1" "r1", .itemFailed "h1" "t1" "r1",
         .runnerUnreachable "h2" "t2" "r2", .itemOk "h2" "t2" "r2"]).state.errors =
      0 + countFailClass
        [.runnerFailed "h1" "t1" "r1", .itemFailed "h1" "t1" "r1",
         .runnerUnreachable "h2" "t2" "r2", .itemOk "h2" "t2" "r2"] ∧
    (∀ (s' : CState) (n : Notification), isFailClass n = false →
      (step s' n).state.errors = s'.errors) :=
  error_counter_spec ⟨"abc", "worker1", some "pb-1", 0, some "deploy"⟩ "deploy" _ rfl

/-- C3: the status carried by the final run-summary event is `FAILED`
iff the error counter is strictly positive when `v2_playbook_on_stats`
runs, and `OK` otherwise; it is computed from the counter alone. -/
theorem final_status_spec (s : CState) (pb : String) (processed : List (String × Json))
    (hpb : s.playbook = some pb) :
    (v2_playbook_on_stats s processed).events.getLast? = some (statsSummaryEvent s pb) ∧
    getField "status" (statsSummaryEvent s pb) = some (.str (final_status s.errors)) ∧
    (final_status s.errors = "FAILED" ↔ 0 < s.errors) ∧
    (final_status s.errors = "OK" ↔ s.errors = 0) := by
  refine ⟨?_, ?_, ?_, ?_⟩
  · simp only [v2_playbook_on_stats, hpb]
    exact List.getLast?_concat _
  · simp [statsSummaryEvent, getField, lookupJ]
  · rw [final_status]
    by_cases he : s.errors > 0 <;> simp [he] <;> omega
  · rw [final_status]
    by_cases he : s.errors > 0 <;> simp [he] <;> omega

/-- Witness for C3: with two recorded errors the summary status is
`FAILED`, and the summary event is the last event emitted. -/
theorem final_status_spec_witness :
    (v2_playbook_on_stats ⟨"abc", "worker1", some "pb-1", 2, some "deploy"⟩
        [("h1", Json.null)]).events.getLast? =
      some (statsSummaryEvent ⟨"abc", "worker1", some "pb-1", 2, some "deploy"⟩ "deploy") ∧
    getField "status" (statsSummaryEvent ⟨"abc", "worker1", some "pb-1", 2, some "deploy"⟩ "deploy") =
      some (.str (final_status 2)) ∧
    (final_status 2 = "FAILED" ↔ 0 < 2) ∧
    (final_status 2 = "OK" ↔ 2 = 0) :=
  final_status_spec ⟨"abc", "worker1", some "pb-1", 2, some "deploy"⟩ "deploy"
    [("h1", Json.null)] rfl

/-- C4: for any per-host statistics mapping with distinct hostnames, in
any iteration order, `v2_playbook_on_stats` emits one statistics event
per host in ascending lexicographic hostname order (each without
`ansible_type` and without `status`, carrying `ansible_host` and that
host's stats payload), followed by exactly one summary event whose only
fields are `playbook_id`, `playbook_name` and the final status; the
output is invariant under permutation of the input mapping. -/
theorem stats_order_spec (s : CState) (pb : String) (processed : List (String × Json))
    (hpb : s.playbook = some pb) (hnd : (processed.map Prod.fst).Nodup) :
    (v2_playbook_on_stats s processed).events =
      (pySorted (processed.map Prod.fst)).map (statsHostEvent s pb processed)
        ++ [statsSummaryEvent s pb] ∧
    List.Sorted strLe (pySorted (processed.map Prod.fst)) ∧
    (pySorted (processed.map Prod.fst)).Perm (processed.map Prod.fst) ∧
    (∀ host ∈ pySorted (processed.map Prod.fst),
       getField "ansible_type" (statsHostEvent s pb processed host) = none ∧
       getField "status" (statsHostEvent s pb processed host) = none ∧
       getField "ansible_host" (statsHostEvent s pb processed host) = some (.str host) ∧
       getField "stats" (statsHostEvent s pb processed host) = lookupJ host processed) ∧
    objKeys (statsSummaryEvent s pb) = ["playbook_id", "playbook_name", "status"] ∧
    getField "status" (statsSummaryEvent s pb) = some (.str (final_status s.errors)) ∧
    (∀ processed' : List (String × Json), processed'.Perm processed →
       v2_playbook_on_stats s processed' = v2_playbook_on_stats s processed) := by
  refine ⟨?_, ?_, ?_, ?_, ?_, ?_, ?_⟩
  · simp [v2_playbook_on_stats, hpb, pySorted]
  · exact List.sorted_insertionSort strLe _
  · exact List.perm_insertionSort strLe _
  · intro host hmem
    have hmem' : host ∈ processed.map Prod.fst :=
      (List.perm_insertionSort strLe _).mem_iff.mp hmem
    obtain ⟨v, hv⟩ := Option.isSome_iff_exists.mp (lookupJ_isSome_of_mem hmem')
    refine ⟨?_, ?_, ?_, ?_⟩
    · simp [statsHostEvent, getField, lookupJ]
    · simp [statsHostEvent, getField, lookupJ]
    · simp [statsHostEvent, getField, lookupJ]
    · simp [statsHostEvent, getField, lookupJ, hv]
  · rfl
  · simp [statsSummaryEvent, getField, lookupJ]
  · intro processed' hperm
    have hnd' : (processed'.map Prod.fst).Nodup := (hperm.map Prod.fst).symm.nodup hnd
    have hkeys : pySorted (processed'.map Prod.fst) = pySorted (processed.map Prod.fst) := by
      refine List.eq_of_perm_of_sorted ?_ (List.sorted_insertionSort strLe _)
        (List.sorted_insertionSort strLe _)
      exact (List.perm_insertionSort strLe _).trans
        ((hperm.map Prod.fst).trans (List.perm_insertionSort strLe _).symm)
    have hev : statsHostEvent s pb processed' = statsHostEvent s pb processed := by
      funext host
      simp only [statsHostEvent]
      rw [lookupJ_perm hperm hnd' host]
    simp only [v2_playbook_on_stats, hpb]
    rw [hkeys, hev]

/-- Witness for C4: input mapping listed as `h2` before `h1`; the
emitted per-host events are nevertheless ordered `h1`, `h2`. -/
theorem stats_order_spec_witness :
    (([("h2", Json.null), ("h1", Json.bool true)] : List (String × Json)).map Prod.fst).Nodup ∧
    (v2_playbook_on_stats ⟨"abc", "worker1", some "pb-1", 0, some "deploy"⟩
        [("h2", Json.null), ("h1", Json.bool true)]).events =
      (pySorted (([("h2", Json.null), ("h1", Json.bool true)] :
            List (String × Json)).map Prod.fst)).map
          (statsHostEvent ⟨"abc", "worker1", some "pb-1", 0, some "deploy"⟩ "deploy"
            [("h2", Json.null), ("h1", Json.bool true)])
        ++ [statsSummaryEvent ⟨"abc", "worker1", some "pb-1", 0, some "deploy"⟩ "deploy"] ∧
    List.Sorted strLe (pySorted (([("h2", Json.null), ("h1", Json.bool true)] :
        List (String × Json)).map Prod.fst)) ∧
    pySorted (([("h2", Json.null), ("h1", Json.bool true)] :
        List (String × Json)).map Prod.fst) = ["h1", "h2"] :=
  ⟨by decide,
   (stats_order_spec ⟨"abc", "worker1", some "pb-1", 0, some "deploy"⟩ "deploy"
      [("h2", Json.null), ("h1", Json.bool true)] rfl (by decide)).1,
   (stats_order_spec ⟨"abc", "worker1", some "pb-1", 0, some "deploy"⟩ "deploy"
      [("h2", Json.null), ("h1", Json.bool true)] rfl (by decide)).2.1,
   by decide⟩

/-- All events of one step carry `playbook_name`/`playbook_id` with the
run's values; `host`/`session`, where present, carry the run's values;
and every event that carries `ansible_type` carries both. -/
theorem step_event_fields (s : CState) (pb pid : String) (n : Notification)
    (hpb : s.playbook = some pb) (hid : s.uuid = some pid) (hn : isPlayStart n = false) :
    ∀ ev ∈ (step s n).events,
      getField "playbook_name" ev = some (.str pb) ∧
      getField "playbook_id" ev = some (.str pid) ∧
      (getField "host" ev = none ∨ getField "host" ev = some (.str s.hostname)) ∧
      (getField "session" ev = none ∨ getField "session" ev = some (.str s.session)) ∧
      ((getField "ansible_type" ev).isSome →
        (getField "host" ev).isSome ∧ (getField "session" ev).isSome) := by
  obtain ⟨sess, hname, u, e, pbf⟩ := s
  simp only [CState.playbook] at hpb
  simp only [CState.uuid] at hid
  subst hpb
  subst hid
  intro ev hev
  cases n with
  | playStart name uuid => simp [isPlayStart] at hn
  | playbookStats processed =>
    simp only [step, v2_playbook_on_stats] at hev
    rcases List.mem_append.mp hev with h | h
    · rcases List.mem_map.mp h with ⟨host, _, rfl⟩
      simp [statsHostEvent, getField, lookupJ, optStrJson]
    · rcases List.mem_singleton.mp h with rfl
      simp [statsSummaryEvent, getField, lookupJ, optStrJson]
  | runnerOk host task res =>
    rcases List.mem_singleton.mp hev with rfl
    simp [getField, lookupJ, optStrJson]
  | runnerFailed host task res =>
    rcases List.mem_singleton.mp hev with rfl
    simp [getField, lookupJ, optStrJson]
  | runnerUnreachable host task res =>
    rcases List.mem_singleton.mp hev with rfl
    simp [getField, lookupJ, optStrJson]
  | runnerAsyncFailed host task res =>
    rcases List.mem_singleton.mp hev with rfl
    simp [getField, lookupJ, optStrJson]
  | itemOk host task res =>
    rcases List.mem_singleton.mp hev with rfl
    simp [getField, lookupJ, optStrJson]
  | itemFailed host task res =>
    rcases List.mem_singleton.mp hev with rfl
    simp [getField, lookupJ, optStrJson]
  | itemSkipped host task res =>
    rcases List.mem_singleton.mp hev with rfl
    simp [getField, lookupJ, optStrJson]
  | itemRetry host task res =>
    rcases List.mem_singleton.mp hev with rfl
    simp [getField, lookupJ, optStrJson]

/-- `step_event_fields` lifted to whole runs without a play-start. -/
theorem run_event_fields (ns : List Notification) :
    ∀ (s : CState) (pb pid : String), s.playbook = some pb → s.uuid = some pid →
      (∀ n ∈ ns, isPlayStart n = false) →
      ∀ ev ∈ (run s ns).events,
        getField "playbook_name" ev = some (.str pb) ∧
        getField "playbook_id" ev = some (.str pid) ∧
        (getField "host" ev = none ∨ getField "host" ev = some (.str s.hostname)) ∧
        (getField "session" ev = none ∨ getField "session" ev = some (.str s.session)) ∧
        ((getField "ansible_type" ev).isSome →
          (getField "host" ev).isSome ∧ (getField "session" ev).isSome) := by
  induction ns with
  | nil => intro s pb pid _ _ _ ev hev; simp [run] at hev
  | cons n ns ih =>
    intro s pb pid hpb hid hns ev hev
    rcases hstep : step s n with ⟨s', evs, err⟩
    have hstepev : ∀ ev ∈ evs,
        getField "playbook_name" ev = some (.str pb) ∧
        getField "playbook_id" ev = some (.str pid) ∧
        (getField "host" ev = none ∨ getField "host" ev = some (.str s.hostname)) ∧
        (getField "session" ev = none ∨ getField "session" ev = some (.str s.session)) ∧
        ((getField "ansible_type" ev).isSome →
          (getField "host" ev).isSome ∧ (getField "session" ev).isSome) := by
      have h := step_event_fields s pb pid n hpb hid (hns n (by simp))
      rw [hstep] at h; exact h
    have hsess : s'.session = s.session := by
      have h := step_session s n; rw [hstep] at h; exact h
    have hhost : s'.hostname = s.hostname := by
      have h := step_hostname s n; rw [hstep] at h; exact h
    have huuid : s'.uuid = s.uuid := by
      have h := step_uuid s n (hns n (by simp)); rw [hstep] at h; exact h
    have hpb' : s'.playbook = s.playbook := by
      have h := step_playbook s n (hns n (by simp)); rw [hstep] at h; exact h
    cases err with
    | none =>
      simp only [run, hstep] at hev
      rcases List.mem_append.mp hev with h | h
      · exact hstepev ev h
      · have := ih s' pb pid (hpb'.trans hpb) (huuid.trans hid)
          (fun m hm => hns m (List.mem_cons_of_mem _ hm)) ev h
        rw [hsess, hhost] at this
        exact this
    | some _ =>
      simp only [run, hstep] at hev
      exact hstepev ev hev

/-- C5 counterexample: in the run `play start` then `run end` with one
processed host, neither the per-host statistics event (which omits
`session`) nor the summary event (which omits `host` and `session`)
carries all four correlation fields. -/
theorem correlation_fields_cex :
    ¬ (∀ ev ∈ (run (initState "abc" "worker1")
          [.playStart "deploy" "pb-1", .playbookStats [("h1", Json.null)]]).events,
        (getField "host" ev).isSome ∧ (getField "session" ev).isSome ∧
        (getField "playbook_id" ev).isSome ∧ (getField "playbook_name" ev).isSome) := by
  decide

/-- C5 (amended): every event of a run carries `playbook_id` and
`playbook_name`, identical across the run; `host` and `session`, where
present, are likewise identical; and every `ansible_type`-carrying
event (start/task/item) carries all four.  (The per-host statistics
events omit `session`, and the final summary omits `host` and
`session`, which is what the counterexample exhibits.) -/
theorem correlation_fields_amended (sess hname pb pid : String) (ns : List Notification)
    (hns : ∀ n ∈ ns, isPlayStart n = false) :
    ∀ ev ∈ (run (initState sess hname) (.playStart pb pid :: ns)).events,
      getField "playbook_name" ev = some (.str pb) ∧
      getField "playbook_id" ev = some (.str pid) ∧
      (getField "host" ev = none ∨ getField "host" ev = some (.str hname)) ∧
      (getField "session" ev = none ∨ getField "session" ev = some (.str sess)) ∧
      ((getField "ansible_type" ev).isSome →
        (getField "host" ev).isSome ∧ (getField "session" ev).isSome) := by
  intro ev hev
  simp only [run, step, v2_playbook_on_play_start, initState] at hev
  rcases List.mem_cons.mp hev with rfl | hev'
  · simp [getField, lookupJ]
  · exact run_event_fields ns ⟨sess, hname, some pid, 0, some pb⟩ pb pid rfl rfl hns ev hev'

/-- Witness for the amended C5 on a concrete run with a task event, a
stats event and a summary event. -/
theorem correlation_fields_amended_witness :
    (∀ n ∈ ([.runnerOk "h1" "t" "r", .playbookStats [("h1", Json.null)]] :
        List Notification), isPlayStart n = false) ∧
    ∀ ev ∈ (run (initState "abc" "worker1")
        (.playStart "deploy" "pb-1" ::
          [.runnerOk "h1" "t" "r", .playbookStats [("h1", Json.null)]])).events,
      getField "playbook_name" ev = some (.str "deploy") ∧
      getField "playbook_id" ev = some (.str "pb-1") ∧
      (getField "host" ev = none ∨ getField "host" ev = some (.str "worker1")) ∧
      (getField "session" ev = none ∨ getField "session" ev = some (.str "abc")) ∧
      ((getField "ansible_type" ev).isSome →
        (getField "host" ev).isSome ∧ (getField "session" ev).isSome) :=
  ⟨by decide,
   correlation_fields_amended "abc" "worker1" "deploy" "pb-1"
     [.runnerOk "h1" "t" "r", .playbookStats [("h1", Json.null)]] (by decide)⟩

/-- C6: every byte string a run hands to `self.pipe.write` is a single
serialized JSON document terminated by a newline, and the document
itself contains no raw newline character (so each line is a
self-contained, single-line JSON document). -/
theorem json_lines_spec (s : CState) (ns : List Notification) :
    ∀ line ∈ runLines s ns, ∃ j : Json,
      line = Json.dumps j ++ "\n" ∧ ∀ c ∈ (Json.dumps j).data, c ≠ '\n' := by
  intro line hline
  rcases List.mem_map.mp hline with ⟨j, _, rfl⟩
  exact ⟨j, rfl, noNewline_dumps j⟩

/-- Witness for C6: the line written by a concrete start event. -/
theorem json_lines_spec_witness :
    (write_to_pipe (Json.obj
        [("status", .str "OK"), ("host", .str "worker1"), ("session", .str "abc"),
         ("playbook_name", .str "deploy"), ("playbook_id", .str "pb-1"),
         ("ansible_type", .str "start")]) ∈
      runLines (initState "abc" "worker1") [.playStart "deploy" "pb-1"]) ∧
    ∃ j : Json,
      write_to_pipe (Json.obj
        [("status", .str "OK"), ("host", .str "worker1"), ("session", .str "abc"),
         ("playbook_name", .str "deploy"), ("playbook_id", .str "pb-1"),
         ("ansible_type", .str "start")]) = Json.dumps j ++ "\n" ∧
      ∀ c ∈ (Json.dumps j).data, c ≠ '\n' :=
  ⟨List.mem_singleton.mpr rfl,
   json_lines_spec (initState "abc" "worker1") [.playStart "deploy" "pb-1"] _
     (List.mem_singleton.mpr rfl)⟩

/-- C7: `v2_playbook_on_play_start` assigns the play's name and uuid
into the state and emits exactly one event with `ansible_type = start`
and `status = OK`; for session `abc`, hostname `worker1` and
`v2_playbook_on_play_start("deploy", "pb-1")` the emitted event has
exactly the fields `status OK`, `host worker1`, `session abc`,
`playbook_name deploy`, `playbook_id pb-1`, `ansible_type start`, and
no `ansible_host` field. -/
theorem play_start_spec :
    (∀ (s : CState) (name uuid : String),
       (step s (.playStart name uuid)).state.playbook = some name ∧
       (step s (.playStart name uuid)).state.uuid = some uuid ∧
       (step s (.playStart name uuid)).err = none ∧
       (step s (.playStart name uuid)).events.length = 1 ∧
       ∀ ev ∈ (step s (.playStart name uuid)).events,
         getField "ansible_type" ev = some (.str "start") ∧
         getField "status" ev = some (.str "OK")) ∧
    (step (initState "abc" "worker1") (.playStart "deploy" "pb-1")).events =
      [Json.obj [("status", .str "OK"), ("host", .str "worker1"), ("session", .str "abc"),
        ("playbook_name", .str "deploy"), ("playbook_id", .str "pb-1"),
        ("ansible_type", .str "start")]] ∧
    ∀ ev ∈ (step (initState "abc" "worker1") (.playStart "deploy" "pb-1")).events,
      getField "ansible_host" ev = none := by
  refine ⟨?_, rfl, ?_⟩
  · intro s name uuid
    refine ⟨rfl, rfl, rfl, rfl, ?_⟩
    intro ev hev
    rcases List.mem_singleton.mp hev with rfl
    exact ⟨by simp [getField, lookupJ], by simp [getField, lookupJ]⟩
  · intro ev hev
    rcases List.mem_singleton.mp hev with rfl
    simp [getField, lookupJ]

/-- Witness for C7 at a concrete state and play. -/
theorem play_start_spec_witness :
    (step (⟨"x", "y", none, 0, none⟩ : CState) (.playStart "n" "i")).state.playbook =
      some "n" ∧
    getField "ansible_host" (Json.obj
      [("status", .str "OK"), ("host", .str "worker1"), ("session", .str "abc"),
       ("playbook_name", .str "deploy"), ("playbook_id", .str "pb-1"),
       ("ansible_type", .str "start")]) = none :=
  ⟨(play_start_spec.1 ⟨"x", "y", none, 0, none⟩ "n" "i").1,
   play_start_spec.2.2 _ (List.mem_singleton.mpr rfl)⟩

/-- C10: any task-level or item-level handler invoked after `__init__`
but before any play start reads the never-assigned `self.playbook`
attribute, raises `AttributeError`, and writes nothing; `__init__`
leaves `self.playbook` unassigned and `self.uuid = None`, and only the
play-start handler assigns `self.playbook`. -/
theorem pre_play_start_spec (s : CState) (n : Notification)
    (hpb : s.playbook = none) (hn : isTaskOrItemNotif n = true) :
    (step s n).events = [] ∧
    (step s n).err = some (.attributeError "playbook") ∧
    (∀ sess host : String,
       (initState sess host).playbook = none ∧ (initState sess host).uuid = none) ∧
    (∀ (s' : CState) (n' : Notification), isPlayStart n' = false →
       (step s' n').state.playbook = s'.playbook) := by
  refine ⟨?_, ?_, fun _ _ => ⟨rfl, rfl⟩, fun s' n' h => step_playbook s' n' h⟩
  all_goals
    obtain ⟨sess, hname, u, e, pbf⟩ := s
  all_goals
    simp only [CState.playbook] at hpb
  all_goals
    subst hpb
  all_goals
    cases n <;> first
      | rfl
      | (simp [isTaskOrItemNotif] at hn)

/-- Witness for C10: `v2_runner_on_ok` on the freshly initialized
state raises and writes nothing. -/
theorem pre_play_start_spec_witness :
    (step (initState "abc" "worker1") (.runnerOk "h1" "t" "r")).events = [] ∧
    (step (initState "abc" "worker1") (.runnerOk "h1" "t" "r")).err =
      some (.attributeError "playbook") ∧
    (∀ sess host : String,
       (initState sess host).playbook = none ∧ (initState sess host).uuid = none) ∧
    (∀ (s' : CState) (n' : Notification), isPlayStart n' = false →
       (step s' n').state.playbook = s'.playbook) :=
  pre_play_start_spec (initState "abc" "worker1") (.runnerOk "h1" "t" "r") rfl rfl

/-- C1 (code bug): with `ANSIBLE_NAMED_PIPE` unset, `__init__` does
surface the warning and set `self.disabled`, but — lacking a `return` —
falls through to `open(None, "w", 0600)` and raises `TypeError`, so the
component never becomes the promised silent no-op. -/
theorem init_missing_pipe (sessionEnv : Option String) (freshUuid hostname : String)
    (openOk : String → Bool) :
    (moduleInit none sessionEnv freshUuid hostname openOk).warnings = [pipeWarning] ∧
    (moduleInit none sessionEnv freshUuid hostname openOk).disabled = true ∧
    (moduleInit none sessionEnv freshUuid hostname openOk).result = .error .typeError :=
  ⟨rfl, rfl, rfl⟩

/-- C8 (code bug): even with a valid pipe path and a successful `open`,
`__init__` raises `AttributeError` at `self.start_time =
datetime.utcnow()` (line 62), because line 22 imports the `datetime`
module, which has no `utcnow` attribute; initialization therefore never
succeeds, for any hostname. -/
theorem init_utcnow_bug (path : String) (sessionEnv : Option String)
    (freshUuid hostname : String) (openOk : String → Bool) (h : openOk path = true) :
    (moduleInit (some path) sessionEnv freshUuid hostname openOk).result =
      .error (.attributeError "utcnow") ∧
    datetimeModuleGetattr "utcnow" = .error (.attributeError "utcnow") := by
  constructor
  · simp [moduleInit, h, datetimeModuleGetattr, datetimeModuleAttrs]
  · rfl

/-- Witness for C8 at a concrete path on a filesystem where the open
succeeds. -/
theorem init_utcnow_bug_witness :
    ((fun _ : String => true) "/tmp/pipe" = true) ∧
    (moduleInit (some "/tmp/pipe") none "uuid-1" "worker1" (fun _ => true)).result =
      .error (.attributeError "utcnow") ∧
    datetimeModuleGetattr "utcnow" = .error (.attributeError "utcnow") :=
  ⟨rfl, init_utcnow_bug "/tmp/pipe" none "uuid-1" "worker1" (fun _ => true) rfl⟩

/-- C9 (code bug): the `open(pipe_path, "w", 0600)` call opens the
stream write-only, but its third positional argument is Python 2
`open`'s *buffer size* (0600 octal = 384 bytes), not a permission
mask; no permission is applied to the pipe. -/
theorem init_open_bufsize (path : String) (sessionEnv : Option String)
    (freshUuid hostname : String) (openOk : String → Bool) (h : openOk path = true) :
    (moduleInit (some path) sessionEnv freshUuid hostname openOk).pipe =
      some { path := path, mode := "w", bufsize := 384 } := by
  simp [moduleInit, h, datetimeModuleGetattr, datetimeModuleAttrs]

/-- Witness for C9 at a concrete path. -/
theorem init_open_bufsize_witness :
    ((fun _ : String => true) "/tmp/pipe" = true) ∧
    (moduleInit (some "/tmp/pipe") none "uuid-1" "worker1" (fun _ => true)).pipe =
      some { path := "/tmp/pipe", mode := "w", bufsize := 384 } :=
  ⟨rfl, init_open_bufsize "/tmp/pipe" none "uuid-1" "worker1" (fun _ => true) rfl⟩

end NamedPipe
